import Mathlib

/-!
Verification of the request-routing / authorization-gateway layer of this
repository.

The main embedded source file is the API routing module (found at
src/webapp/src/js/enketo/widgets/rdtoolkit-provisioning.js, second document
in the bundle; line numbers below refer to that file).  It builds an Express
application: an ordered list of routes, each with a method filter, an
Express path pattern, and a chain of middleware handlers.  We embed:

* Express path patterns as character-level regular expressions (Express 4
  compiles patterns with path-to-regexp 0.1.7: `:name` becomes `([^/]+?)`,
  `*` becomes `(.*)`, `+` and `(...)?` and `(/){0,}` are kept as plain
  regex operators; `strict routing` is enabled at line 224 so no trailing
  `/?` is added).  Matching is decided with Brzozowski derivatives.
* The route table in registration order, and Express dispatch semantics:
  the first matching route runs its handler chain; a handler either
  responds, calls next (continue in the chain; falling off the end of the
  chain continues with the remaining routes), or calls next('route')
  (skip the rest of this chain, continue with the remaining routes).

Environment instantiation: `environment.db = 'medic'` and
`environment.ddoc = 'medic'`, so `routePrefix = '/+medic/+'`,
`pathPrefix = '/medic/'`, `appPrefix = '/medic/_design/medic/_rewrite/'`,
`adminAppPrefix = '/medic/_design/medic-admin/_rewrite/'`, and the
`--allow-cors` switch is absent.

Middleware whose bodies live outside this repository snapshot
(`authorization.*`, `infodoc.*`, the bulk-docs / db-doc / changes
controllers, the `compression` library) are modelled from the spec; each
such definition carries a doc comment starting with `Modelled from the
spec:`.
-/

/-- Character-level regular expressions, the target of Express
path-pattern compilation.  `notSlash` is `[^/]`, `anyChar` is `.`. -/
inductive RE where
  | emp : RE
  | eps : RE
  | chr : Char → RE
  | notSlash : RE
  | anyChar : RE
  | seq : RE → RE → RE
  | alt : RE → RE → RE
  | star : RE → RE
deriving DecidableEq, Repr

/-- Does the regular expression accept the empty string? -/
def RE.nullable : RE → Bool
  | .emp => false
  | .eps => true
  | .chr _ => false
  | .notSlash => false
  | .anyChar => false
  | .seq a b => a.nullable && b.nullable
  | .alt a b => a.nullable || b.nullable
  | .star _ => true

/-- Smart sequencing constructor keeping derivatives small. -/
def RE.mkSeq : RE → RE → RE
  | .emp, _ => .emp
  | _, .emp => .emp
  | .eps, b => b
  | a, .eps => a
  | a, b => .seq a b

/-- Smart alternation constructor keeping derivatives small. -/
def RE.mkAlt : RE → RE → RE
  | .emp, b => b
  | a, .emp => a
  | a, b => .alt a b

/-- Brzozowski derivative of a regular expression by one character. -/
def RE.deriv : RE → Char → RE
  | .emp, _ => .emp
  | .eps, _ => .emp
  | .chr c, x => if x = c then .eps else .emp
  | .notSlash, x => if x = '/' then .emp else .eps
  | .anyChar, _ => .eps
  | .seq a b, x =>
    if a.nullable then RE.mkAlt (RE.mkSeq (a.deriv x) b) (b.deriv x)
    else RE.mkSeq (a.deriv x) b
  | .alt a b, x => RE.mkAlt (a.deriv x) (b.deriv x)
  | .star a, x => RE.mkSeq (a.deriv x) (.star a)

/-- Full-string matching on a character list by iterated derivatives. -/
def reMatchesL (r : RE) (s : List Char) : Bool :=
  (s.foldl RE.deriv r).nullable

/-- Full-string matching on a `String` (Express patterns are anchored:
path-to-regexp wraps them in `^...$`). -/
def reMatches (r : RE) (s : String) : Bool :=
  reMatchesL r s.toList

/-- Literal character sequence. -/
def litL : List Char → RE
  | [] => .eps
  | c :: cs => RE.seq (.chr c) (litL cs)

/-- Literal string pattern. -/
def lit (s : String) : RE := litL s.toList

/-- Pattern `c+` : one or more occurrences of a character (Express keeps `+` as a
plain regex operator, e.g. the `/+` in `routePrefix`). -/
def plusOf (c : Char) : RE := RE.seq (.chr c) (.star (.chr c))

/-- Pattern `([^/]+)` : what an Express `:name` parameter compiles to. -/
def param : RE := RE.seq .notSlash (.star .notSlash)

/-- Pattern `(.*)` : what an Express `*` compiles to. -/
def anyStar : RE := RE.star .anyChar

/-- Optional group `(r)?`. -/
def optRE (r : RE) : RE := RE.alt .eps r

/-- Sequence a list of regular expressions. -/
def seqs (l : List RE) : RE := l.foldr RE.seq .eps

/-- The `routePrefix = '/+' + environment.db + '/+'` (line 180), with
`environment.db = 'medic'`. -/
def routePreRE : RE := seqs [plusOf '/', lit "medic", plusOf '/']

/-- An endpoint pattern mounted under `routePrefix`. -/
def rp (l : List RE) : RE := RE.seq routePreRE (seqs l)

/-- The `(/*)?` suffix used by several couch endpoints, compiled by
path-to-regexp 0.1.7 to `(/(.*))?`. -/
def optSlashAny : RE := optRE (RE.seq (.chr '/') anyStar)

/-- HTTP methods relevant to the routing table. -/
inductive Method where
  | get : Method
  | post : Method
  | put : Method
  | delete : Method
deriving DecidableEq, BEq, Repr

/-- The per-request user context saved by `authorization.getUserCtx`
(line 383): a validated session classified online/offline from role
membership (spec section 4.1). -/
structure UserCtx where
  isOnline : Bool
deriving DecidableEq, Repr

/-- The request environment, fixed for the lifetime of one dispatch.

* `contentType` is the `content-type` header (line 198).
* `acceptJson` is whether the `accept` header equals `application/json`
  (line 326).
* `isStaticAsset` is whether `express.static` (lines 374-375) finds a file
  for this path.
* `canEdit` is whether `auth.check(req, 'can_edit')` (line 839) succeeds.
* `handlerAllows` abstracts the per-document authorization outcome of the
  audited write controllers (`bulkDocs.request` / `dbDocHandler.request`):
  true iff every document touched by the request passes the visibility
  check of spec section 4.5. -/
structure Req where
  method : Method
  userCtx : Option UserCtx
  contentType : Option String
  acceptJson : Bool
  isStaticAsset : Bool
  canEdit : Bool
  handlerAllows : Bool
deriving DecidableEq, Repr

/-- Observable events recorded while a request moves down the chain. -/
inductive Ev where
  | marked : Ev
  | authAllow : Ev
  | authDeny : Ev
  | setAuth : Ev
  | fwPass : Ev
deriving DecidableEq, Repr

/-- Mutable per-request state threaded through the middleware chain:
`path` is `req.url` (rewritable, lines 345-355), `authorized` is the flag
set by `authorization.setAuthorized`, `intercept` is
`res.interceptResponse` (line 881), `trace` records events. -/
structure St where
  path : String
  authorized : Bool
  intercept : Bool
  trace : List Ev
deriving DecidableEq, Repr

/-- Which proxy server a request is forwarded through (lines 146-154). -/
inductive ProxyT where
  | direct : ProxyT
  | auth : ProxyT
  | changes : ProxyT
deriving DecidableEq, Repr

/-- Terminal result of a request. -/
inductive Outcome where
  | proxied : ProxyT → Outcome
  | handled : String → Outcome
  | errored : Nat → String → Outcome
  | redirect : String → Outcome
deriving DecidableEq, Repr

/-- Final response together with the final request state. -/
structure Res where
  outcome : Outcome
  st : St
deriving DecidableEq, Repr

/-- What a single middleware step does: respond, call next, or call
next('route'). -/
inductive HStep where
  | respond : Outcome → St → HStep
  | next : St → HStep
  | nextRoute : St → HStep
deriving DecidableEq, Repr

/-- Result of running one route's handler chain. -/
inductive ChainRes where
  | done : Res → ChainRes
  | cont : St → ChainRes
deriving DecidableEq, Repr

/-- The middleware handlers appearing in the routing table. -/
inductive H where
  | pass : H
  | jsonGuard : H
  | root : H
  | medicRewrite : H
  | adminRewrite : H
  | staticFiles : H
  | offlineUserFirewall : H
  | onlineUserPassThrough : H
  | onlineUserProxy : ProxyT → H
  | setAuthorized : H
  | infodocMark : H
  | auditedWrite : String → H
  | dbDocGet : H
  | ddocRequest : H
  | canEditCheck : H
  | deployInfo : H
  | respond : Outcome → H
deriving Repr

/-- The content-type test of `handleJsonRequest` (lines 198-199):
`!contentType || contentType !== 'application/json'`. -/
def badContentType : Option String → Bool
  | none => true
  | some s => s != "application/json"

/-- The `adminAppPrefix` (line 183) with `environment.db = 'medic'`. -/
def adminAppPre : String := "/medic/_design/medic-admin/_rewrite/"

/-- The rewrite `req.url.replace(/\/admin\/?/, adminAppPrefix)` (line 353): replace
the first occurrence of `/admin/` (or `/admin` if no trailing slash
follows) with `adminAppPrefix`. -/
def replaceAdminL : List Char → List Char
  | [] => []
  | c :: rest =>
    if (c :: rest).take 7 = "/admin/".toList then
      adminAppPre.toList ++ (c :: rest).drop 7
    else if (c :: rest).take 6 = "/admin".toList then
      adminAppPre.toList ++ (c :: rest).drop 6
    else
      c :: replaceAdminL rest

/-- String version of `replaceAdminL`. -/
def replaceAdmin (s : String) : String :=
  String.mk (replaceAdminL s.toList)

/-- Semantics of one middleware handler.

Handlers whose bodies are outside this snapshot are modelled from the
spec, guided by the comments in the routing file itself:

* `offlineUserFirewall` — Modelled from the spec: the enforcement arm of
  the Routing Firewall (spec 4.2): unauthenticated requests get a
  401-equivalent; otherwise allow iff `userContext.isOnline` or the
  `authorized` flag was previously set on the request (the `WriteAudited`
  rule; the routing file's comments at lines 832-834 say exactly this:
  "block offline users requests ... requests which are authorized ... can
  pass through; unauthenticated requests will be redirected to login").
* `onlineUserPassThrough` — Modelled from the spec: "online user requests
  pass through to the next route" (comment at line 641); offline requests
  continue in the same chain.
* `onlineUserProxy` — Modelled from the spec: "authorization middleware to
  proxy online users requests directly to CouchDB; reads offline users
  user-settings" (comments at lines 588-589); unauthenticated requests get
  a 401-equivalent.
* `setAuthorized` — "adds the `authorized` flag to the `req` object, so it
  passes the firewall" (comment at line 644).
* `infodocMark` — Modelled from the spec: step (1) of the Audited Write
  Pipeline (spec 4.5), stamping the audit record on the request path.
* `auditedWrite tag` — Modelled from the spec: the offline arm of the
  Audited Write Pipeline (spec 4.5): authorize per document, reject the
  entire batch with Forbidden unless every document passes, and on success
  arrange response interception (comment at line 877) and call next.
* `dbDocGet` — Modelled from the spec: offline document reads are served
  by the Stream Filter-backed controller (terminal).
* `ddocRequest` — Modelled from the spec: ddoc GET for offline users
  continues down the chain (not claim-relevant).
* `canEditCheck` — `canEdit` (lines 837-850): require the `can_edit`
  permission, then forward through `proxyForAuth`; otherwise a
  server error. -/
def runH : H → Req → St → HStep
  | .pass, _, st => .next st
  | .jsonGuard, req, st =>
    if badContentType req.contentType then
      .respond (.errored 400 "content-type") st
    else
      .next st
  | .root, req, st =>
    if req.acceptJson then .respond (.proxied .direct) st
    else .respond (.handled "index") st
  | .medicRewrite, _, st => .next st
  | .adminRewrite, _, st => .next { st with path := replaceAdmin st.path }
  | .staticFiles, req, st =>
    if req.isStaticAsset then .respond (.handled "static") st else .next st
  | .offlineUserFirewall, req, st =>
    match req.userCtx with
    | none => .respond (.errored 401 "not-logged-in") st
    | some u =>
      if u.isOnline || st.authorized then
        .next { st with trace := st.trace ++ [.fwPass] }
      else
        .respond (.errored 403 "firewall") st
  | .onlineUserPassThrough, req, st =>
    match req.userCtx with
    | some u => if u.isOnline then .nextRoute st else .next st
    | none => .next st
  | .onlineUserProxy t, req, st =>
    match req.userCtx with
    | none => .respond (.errored 401 "not-logged-in") st
    | some u => if u.isOnline then .respond (.proxied t) st else .next st
  | .setAuthorized, _, st =>
    .next { st with authorized := true, trace := st.trace ++ [.setAuth] }
  | .infodocMark, _, st => .next { st with trace := st.trace ++ [.marked] }
  | .auditedWrite tag, req, st =>
    if req.handlerAllows then
      .next { st with intercept := true, trace := st.trace ++ [.authAllow] }
    else
      .respond (.errored 403 tag) { st with trace := st.trace ++ [.authDeny] }
  | .dbDocGet, _, st => .respond (.handled "db-doc") st
  | .ddocRequest, _, st => .next st
  | .canEditCheck, req, st =>
    if req.canEdit then .respond (.proxied .auth) st
    else .respond (.errored 500 "not-authorized") st
  | .deployInfo, req, st =>
    match req.userCtx with
    | none => .respond (.errored 401 "not-logged-in") st
    | some _ => .respond (.handled "deploy-info") st
  | .respond o, _, st => .respond o st

/-- Run a route's handler chain under Express semantics. -/
def runChain : List H → Req → St → ChainRes
  | [], _, st => .cont st
  | h :: hs, req, st =>
    match runH h req st with
    | .respond o st2 => .done ⟨o, st2⟩
    | .next st2 => runChain hs req st2
    | .nextRoute st2 => .cont st2

/-- One registered route: optional method filter (`none` is `app.all` /
`app.use`), compiled path pattern, handler chain. -/
structure Route where
  method : Option Method
  pat : RE
  chain : List H

/-- Method filter test. -/
def methodOk : Option Method → Method → Bool
  | none, _ => true
  | some m, m2 => m == m2

/-- Does a route apply to this request at the current (possibly
rewritten) path? -/
def routeMatches (r : Route) (m : Method) (p : String) : Bool :=
  methodOk r.method m && reMatches r.pat p

/-- Express dispatch: try routes in order; the first whose pattern and
method match runs its chain; a chain that does not respond continues with
the remaining routes and the (possibly updated) state. -/
def runRoutes : List Route → Req → St → Res
  | [], _, st => ⟨.errored 404 "unhandled", st⟩
  | r :: rs, req, st =>
    if routeMatches r req.method st.path then
      match runChain r.chain req st with
      | .done res => res
      | .cont st2 => runRoutes rs req st2
    else
      runRoutes rs req st

/-- The `appPrefix = pathPrefix + '_design/' + ddoc + '/_rewrite/'` (line 182)
with db = ddoc = 'medic'. -/
def appPreStr : String := "/medic/_design/medic/_rewrite/"

/-- The routes registered before the online-only firewall block: the
top-level middleware (request id, logging, helmet, compression; lines
246-320), the root/dbinfo/appcache/rewrite/favicon/static routes (lines
325-375), the login routes (lines 376-380) and `authorization.getUserCtx`
(line 383).  Routes built with `app.postJson` carry the `jsonGuard` step
installed by `handleJsonRequest` (lines 196-216). -/
def preOnlineOnlyRoutes : List Route := [
  -- app.use(req.id = uuid) (line 246)
  ⟨none, anyStar, [.pass]⟩,
  -- app.use(morgan REQ) (line 253)
  ⟨none, anyStar, [.pass]⟩,
  -- app.use(morgan RES) (line 258)
  ⟨none, anyStar, [.pass]⟩,
  -- app.use(helmet) (line 264)
  ⟨none, anyStar, [.pass]⟩,
  -- app.use(compression) (line 312)
  ⟨none, anyStar, [.pass]⟩,
  -- app.get('/') (line 325)
  ⟨some .get, lit "/", [.root]⟩,
  -- app.get('/dbinfo') (line 335): rewrites url to '/' and proxies
  ⟨some .get, lit "/dbinfo", [.respond (.proxied .direct)]⟩,
  -- app.get(['/medic/_design/medic/_rewrite/', appPrefix]) (line 340);
  -- with db = ddoc = 'medic' both array entries are the same pattern
  ⟨some .get, lit "/medic/_design/medic/_rewrite/",
    [.respond (.handled "appcache-upgrade")]⟩,
  ⟨some .get, lit "/medic/_design/medic/_rewrite/",
    [.respond (.handled "appcache-upgrade")]⟩,
  -- app.all('/+medic(/*)?') (line 345): with environment.db = 'medic'
  -- the url is left unchanged
  ⟨none, seqs [plusOf '/', lit "medic", optSlashAny], [.medicRewrite]⟩,
  -- app.all('/+admin(/*)?') (line 352)
  ⟨none, seqs [plusOf '/', lit "admin", optSlashAny], [.adminRewrite]⟩,
  -- app.get('/favicon.ico') (line 357)
  ⟨some .get, lit "/favicon.ico", [.respond (.handled "favicon")]⟩,
  -- app.use(express.static(build/public)) (line 374)
  ⟨none, anyStar, [.staticFiles]⟩,
  -- app.use(express.static(extractedResourceDirectory)) (line 375)
  ⟨none, anyStar, [.staticFiles]⟩,
  -- app.get(routePrefix + 'login') (line 376)
  ⟨some .get, rp [lit "login"], [.respond (.handled "login-get")]⟩,
  -- app.get(routePrefix + 'login/identity') (line 377)
  ⟨some .get, rp [lit "login/identity"],
    [.respond (.handled "login-identity")]⟩,
  -- app.postJson(routePrefix + 'login') (line 378)
  ⟨some .post, rp [lit "login"], [.jsonGuard, .respond (.handled "login-post")]⟩,
  -- app.get(routePrefix + 'login/token/:token?') (line 379)
  ⟨some .get, rp [lit "login/token", optRE (RE.seq (.chr '/') param)],
    [.respond (.handled "login-token-get")]⟩,
  -- app.postJson(routePrefix + 'login/token/:token?') (line 380)
  ⟨some .post, rp [lit "login/token", optRE (RE.seq (.chr '/') param)],
    [.jsonGuard, .respond (.handled "login-token-post")]⟩,
  -- app.use(authorization.getUserCtx) (line 383)
  ⟨none, anyStar, [.pass]⟩
]

/-- The `ONLINE_ONLY_ENDPOINTS` list (lines 386-396), compiled at `routePrefix`. -/
def onlineOnlyPats : List RE := [
  -- '_design/*/_list/*'
  rp [lit "_design/", anyStar, lit "/_list/", anyStar],
  -- '_design/*/_show/*'
  rp [lit "_design/", anyStar, lit "/_show/", anyStar],
  -- '_design/*/_view/*'
  rp [lit "_design/", anyStar, lit "/_view/", anyStar],
  -- '_find(/*)?'
  rp [lit "_find", optSlashAny],
  -- '_explain(/*)?'
  rp [lit "_explain", optSlashAny],
  -- '_index(/*)?'
  rp [lit "_index", optSlashAny],
  -- '_ensure_full_commit(/*)?'
  rp [lit "_ensure_full_commit", optSlashAny],
  -- '_security(/*)?'
  rp [lit "_security", optSlashAny],
  -- '_purge(/*)?'
  rp [lit "_purge", optSlashAny]
]

/-- Registration `ONLINE_ONLY_ENDPOINTS.forEach(url => app.all(routePrefix + url,
authorization.offlineUserFirewall))` (lines 399-401). -/
def onlineOnlyRoutes : List Route :=
  onlineOnlyPats.map (fun pat => Route.mk none pat [H.offlineUserFirewall])

/-- The `UNAUDITED_ENDPOINTS` list (lines 413-428), each registered as an
unconditional proxy (lines 430-438). -/
def unauditedPats : List RE := [
  -- routePrefix + '_local/*'
  rp [lit "_local/", anyStar],
  -- routePrefix + '_revs_diff'
  rp [lit "_revs_diff"],
  -- routePrefix + '_missing_revs'
  rp [lit "_missing_revs"],
  -- routePrefix + '_design/*/_list/*'
  rp [lit "_design/", anyStar, lit "/_list/", anyStar],
  -- routePrefix + '_design/*/_show/*'
  rp [lit "_design/", anyStar, lit "/_show/", anyStar],
  -- routePrefix + '_design/*/_view/*'
  rp [lit "_design/", anyStar, lit "/_view/", anyStar],
  -- routePrefix + '_find'
  rp [lit "_find"],
  -- routePrefix + '_explain'
  rp [lit "_explain"]
]

set_option maxHeartbeats 1000000 in
/-- The routes between the online-only firewall block and the global
firewall `app.use` at line 835: session, unaudited proxies, setup and api
endpoints, replication endpoints, document routes, meta routes, redirects
and the `appPrefix` pass (lines 404-830). -/
def midRoutes : List Route := [
  -- app.all('/_session') (line 404)
  ⟨none, lit "/_session", [.respond (.proxied .direct)]⟩]
  ++ unauditedPats.map (fun pat =>
    Route.mk none pat [H.respond (.proxied .direct)])
  ++ [
  -- app.get('/setup/poll') (line 440)
  ⟨some .get, lit "/setup/poll", [.respond (.handled "setup-poll")]⟩,
  -- app.all('/setup') (line 450)
  ⟨none, lit "/setup", [.respond (.errored 503 "setup")]⟩,
  -- app.all('/setup/password') (line 454)
  ⟨none, lit "/setup/password", [.respond (.errored 503 "setup-password")]⟩,
  -- app.all('/setup/finish') (line 458)
  ⟨none, lit "/setup/finish", [.respond (.handled "setup-finish")]⟩,
  -- app.get('/api/info') (line 462)
  ⟨some .get, lit "/api/info", [.respond (.handled "api-info")]⟩,
  -- app.get('/api/deploy-info') (line 467)
  ⟨some .get, lit "/api/deploy-info", [.deployInfo]⟩,
  -- app.get('/api/v1/monitoring') (line 474): deprecation middleware, then handler
  ⟨some .get, lit "/api/v1/monitoring", [.pass, .respond (.handled "monitoring-v1")]⟩,
  -- app.get('/api/v2/monitoring') (line 475)
  ⟨some .get, lit "/api/v2/monitoring", [.respond (.handled "monitoring-v2")]⟩,
  -- app.get('/api/auth/:path') (line 477)
  ⟨some .get, seqs [lit "/api/auth", RE.chr '/', param],
    [.respond (.handled "auth-check")]⟩,
  -- app.post('/api/v1/upgrade') (line 491)
  ⟨some .post, lit "/api/v1/upgrade", [.pass, .respond (.handled "upgrade")]⟩,
  -- app.post('/api/v1/upgrade/stage') (line 492)
  ⟨some .post, lit "/api/v1/upgrade/stage", [.pass, .respond (.handled "upgrade-stage")]⟩,
  -- app.post('/api/v1/upgrade/complete') (line 493)
  ⟨some .post, lit "/api/v1/upgrade/complete", [.pass, .respond (.handled "upgrade-complete")]⟩,
  -- app.post('/api/v1/sms/africastalking/incoming-messages') (line 495)
  ⟨some .post, lit "/api/v1/sms/africastalking/incoming-messages",
    [.pass, .respond (.handled "at-incoming")]⟩,
  -- app.post('/api/v1/sms/africastalking/delivery-reports') (line 496)
  ⟨some .post, lit "/api/v1/sms/africastalking/delivery-reports",
    [.pass, .respond (.handled "at-delivery")]⟩,
  -- app.post('/api/v1/sms/radpidpro/incoming-messages') (line 498)
  ⟨some .post, lit "/api/v1/sms/radpidpro/incoming-messages",
    [.pass, .respond (.handled "rapidpro-incoming")]⟩,
  -- app.get('/api/sms/') (line 500)
  ⟨some .get, lit "/api/sms/", [.respond (.redirect "/api/sms")]⟩,
  -- app.get('/api/sms') (line 501)
  ⟨some .get, lit "/api/sms", [.respond (.handled "sms-get")]⟩,
  -- app.post('/api/sms/') (line 503)
  ⟨some .post, lit "/api/sms/", [.respond (.redirect "/api/sms")]⟩,
  -- app.postJson('/api/sms') (line 504)
  ⟨some .post, lit "/api/sms", [.jsonGuard, .respond (.handled "sms-post")]⟩,
  -- app.get('/api/v2/export/:type') (line 506)
  ⟨some .get, seqs [lit "/api/v2/export", RE.chr '/', param],
    [.respond (.handled "export-get")]⟩,
  -- app.postJson('/api/v2/export/:type') (line 507)
  ⟨some .post, seqs [lit "/api/v2/export", RE.chr '/', param],
    [.jsonGuard, .respond (.handled "export-post")]⟩,
  -- app.post('/api/v1/records') (line 509)
  ⟨some .post, lit "/api/v1/records", [.pass, .respond (.handled "records-v1")]⟩,
  -- app.post('/api/v2/records') (line 510)
  ⟨some .post, lit "/api/v2/records", [.pass, .respond (.handled "records-v2")]⟩,
  -- app.get('/api/v1/forms/') (line 512)
  ⟨some .get, lit "/api/v1/forms/", [.respond (.redirect "/api/v1/forms")]⟩,
  -- app.get('/api/v1/forms') (line 515)
  ⟨some .get, lit "/api/v1/forms", [.respond (.handled "forms-list")]⟩,
  -- app.get('/api/v1/forms/:form') (line 516)
  ⟨some .get, seqs [lit "/api/v1/forms", RE.chr '/', param],
    [.respond (.handled "forms-get")]⟩,
  -- app.post('/api/v1/forms/validate') (line 517)
  ⟨some .post, lit "/api/v1/forms/validate", [.pass, .respond (.handled "forms-validate")]⟩,
  -- app.get('/api/v1/users') (line 519)
  ⟨some .get, lit "/api/v1/users", [.respond (.handled "users-get")]⟩,
  -- app.postJson('/api/v1/users') (line 520)
  ⟨some .post, lit "/api/v1/users", [.jsonGuard, .respond (.handled "users-create")]⟩,
  -- app.postJson('/api/v1/users/:username') (line 521)
  ⟨some .post, seqs [lit "/api/v1/users", RE.chr '/', param],
    [.jsonGuard, .respond (.handled "users-update")]⟩,
  -- app.delete('/api/v1/users/:username') (line 522)
  ⟨some .delete, seqs [lit "/api/v1/users", RE.chr '/', param],
    [.respond (.handled "users-delete")]⟩,
  -- app.get('/api/v1/users-info') (line 523)
  ⟨some .get, lit "/api/v1/users-info", [.pass, .respond (.handled "users-info")]⟩,
  -- app.postJson('/api/v1/places') (line 525)
  ⟨some .post, lit "/api/v1/places", [.jsonGuard, .respond (.handled "places-create")]⟩,
  -- app.postJson('/api/v1/places/:id') (line 537)
  ⟨some .post, seqs [lit "/api/v1/places", RE.chr '/', param],
    [.jsonGuard, .respond (.handled "places-update")]⟩,
  -- app.postJson('/api/v1/people') (line 551)
  ⟨some .post, lit "/api/v1/people", [.jsonGuard, .respond (.handled "people-create")]⟩,
  -- app.postJson('/api/v1/bulk-delete') (line 563)
  ⟨some .post, lit "/api/v1/bulk-delete", [.jsonGuard, .respond (.handled "bulk-delete")]⟩,
  -- app.get('/api/v1/hydrate', offlineUserFirewall, ...) (line 566)
  ⟨some .get, lit "/api/v1/hydrate",
    [.offlineUserFirewall, .pass, .respond (.handled "hydrate")]⟩,
  -- app.post('/api/v1/hydrate', offlineUserFirewall, ...) (line 567)
  ⟨some .post, lit "/api/v1/hydrate",
    [.offlineUserFirewall, .pass, .pass, .respond (.handled "hydrate")]⟩,
  -- app.get('/api/v1/contacts-by-phone', offlineUserFirewall, ...) (line 570)
  ⟨some .get, lit "/api/v1/contacts-by-phone",
    [.offlineUserFirewall, .respond (.handled "contacts-by-phone")]⟩,
  -- app.post('/api/v1/contacts-by-phone', offlineUserFirewall, ...) (line 571)
  ⟨some .post, lit "/api/v1/contacts-by-phone",
    [.offlineUserFirewall, .pass, .respond (.handled "contacts-by-phone")]⟩,
  -- app.get(appPrefix + 'app_settings/medic/:path?') (line 573)
  ⟨some .get, seqs [lit "/medic/_design/medic/_rewrite/app_settings/medic",
      optRE (RE.seq (.chr '/') param)],
    [.respond (.handled "settings-v0")]⟩,
  -- app.get('/api/v1/settings') (line 574)
  ⟨some .get, lit "/api/v1/settings", [.respond (.handled "settings-get")]⟩,
  -- app.get('/api/v1/settings/deprecated-transitions') (line 575)
  ⟨some .get, lit "/api/v1/settings/deprecated-transitions",
    [.respond (.handled "settings-deprecated-transitions")]⟩,
  -- app.putJson(appPrefix + 'update_settings/medic') (line 577)
  ⟨some .put, lit "/medic/_design/medic/_rewrite/update_settings/medic",
    [.jsonGuard, .respond (.handled "settings-put-v0")]⟩,
  -- app.putJson('/api/v1/settings') (line 578)
  ⟨some .put, lit "/api/v1/settings", [.jsonGuard, .respond (.handled "settings-put")]⟩,
  -- app.get('/api/couch-config-attachments') (line 580)
  ⟨some .get, lit "/api/couch-config-attachments",
    [.respond (.handled "couch-config")]⟩,
  -- app.get('/purging', onlineUserPassThrough, ...) (line 582)
  ⟨some .get, lit "/purging",
    [.onlineUserPassThrough, .respond (.handled "purging-info")]⟩,
  -- app.get('/purging/changes', onlineUserPassThrough, ...) (line 583)
  ⟨some .get, lit "/purging/changes",
    [.onlineUserPassThrough, .respond (.handled "purging-changes")]⟩,
  -- app.get('/purging/checkpoint', onlineUserPassThrough, ...) (line 584)
  ⟨some .get, lit "/purging/checkpoint",
    [.onlineUserPassThrough, .respond (.handled "purging-checkpoint")]⟩,
  -- app.get('/api/v1/users-doc-count') (line 586)
  ⟨some .get, lit "/api/v1/users-doc-count",
    [.respond (.handled "users-doc-count")]⟩,
  -- app.get(changesPath = routePrefix + '_changes(/*)?') (line 600)
  ⟨some .get, rp [lit "_changes", optSlashAny],
    [.onlineUserProxy .changes, .respond (.handled "changes")]⟩,
  -- app.post(changesPath) (line 605)
  ⟨some .post, rp [lit "_changes", optSlashAny],
    [.onlineUserProxy .changes, .pass, .respond (.handled "changes")]⟩,
  -- app.get(allDocsPath = routePrefix + '_all_docs(/*)?') (line 616)
  ⟨some .get, rp [lit "_all_docs", optSlashAny],
    [.onlineUserProxy .direct, .pass, .respond (.handled "all-docs")]⟩,
  -- app.post(allDocsPath) (line 617)
  ⟨some .post, rp [lit "_all_docs", optSlashAny],
    [.onlineUserProxy .direct, .pass, .pass, .respond (.handled "all-docs")]⟩,
  -- app.post(routePrefix + '_bulk_get(/*)?') (line 627)
  ⟨some .post, rp [lit "_bulk_get", optSlashAny],
    [.onlineUserProxy .direct, .pass, .pass, .respond (.handled "bulk-get")]⟩,
  -- app.post(routePrefix + '_bulk_docs(/*)?', jsonParser, infodoc.mark,
  --   onlineUserPassThrough, jsonQueryParser, bulkDocs.request,
  --   setAuthorized) (lines 637-645)
  ⟨some .post, rp [lit "_bulk_docs", optSlashAny],
    [.pass, .infodocMark, .onlineUserPassThrough, .pass,
     .auditedWrite "bulk-docs", .setAuthorized]⟩,
  -- app.get(ddocPath = routePrefix + '_design/+:ddocId*') (line 654)
  ⟨some .get, rp [lit "_design", plusOf '/', param, optSlashAny],
    [.onlineUserProxy .direct, .pass, .ddocRequest, .setAuthorized]⟩,
  -- app.get(docPath = routePrefix + ':docId/{0,}') (line 662)
  ⟨some .get, rp [param, RE.star (.chr '/')],
    [.onlineUserProxy .direct, .pass, .dbDocGet]⟩,
  -- app.post('/+medic/?', jsonParser, infodoc.mark, onlineUserPassThrough,
  --   jsonQueryParser, dbDocHandler.request, setAuthorized) (line 668)
  ⟨some .post, seqs [plusOf '/', lit "medic", optRE (.chr '/')],
    [.pass, .infodocMark, .onlineUserPassThrough, .pass,
     .auditedWrite "db-doc", .setAuthorized]⟩,
  -- app.put(docPath, jsonParser, infodoc.mark, onlineUserPassThrough,
  --   jsonQueryParser, dbDocHandler.request, setAuthorized) (line 677)
  ⟨some .put, rp [param, RE.star (.chr '/')],
    [.pass, .infodocMark, .onlineUserPassThrough, .pass,
     .auditedWrite "db-doc", .setAuthorized]⟩,
  -- app.delete(docPath, onlineUserPassThrough, jsonQueryParser,
  --   dbDocHandler.request, setAuthorized) (line 686); NB: no infodoc.mark
  ⟨some .delete, rp [param, RE.star (.chr '/')],
    [.onlineUserPassThrough, .pass, .auditedWrite "db-doc", .setAuthorized]⟩,
  -- app.all(attachmentPath = routePrefix + ':docId/+:attachmentId*',
  --   onlineUserPassThrough, jsonQueryParser, dbDocHandler.request,
  --   setAuthorized) (line 693); NB: no infodoc.mark
  ⟨none, rp [param, plusOf '/', param, optSlashAny],
    [.onlineUserPassThrough, .pass, .auditedWrite "attachment", .setAuthorized]⟩,
  -- app.all('/+medic-user-*-meta(/*)?') (line 703): with db = 'medic'
  -- the url is left unchanged
  ⟨none, seqs [plusOf '/', lit "medic-user-", anyStar, lit "-meta", optSlashAny],
    [.medicRewrite]⟩,
  -- app.get(metaPathPrefix + '_changes') (line 711)
  ⟨some .get, seqs [lit "/medic-user-", anyStar, lit "-meta/_changes"],
    [.respond (.proxied .changes)]⟩,
  -- app.put(metaPathPrefix, createUserDb) (line 716)
  ⟨some .put, seqs [lit "/medic-user-", anyStar, lit "-meta/"],
    [.respond (.handled "create-user-db")]⟩,
  -- app.all(metaPathPrefix + '*', setAuthorized) (line 718)
  ⟨none, seqs [lit "/medic-user-", anyStar, lit "-meta/", anyStar],
    [.setAuthorized]⟩,
  -- app.get('/service-worker.js') (line 777)
  ⟨some .get, lit "/service-worker.js", [.respond (.handled "service-worker")]⟩,
  -- app.get(appPrefix sans trailing slash) (lines 822-827)
  ⟨some .get, lit "/medic/_design/medic/_rewrite",
    [.respond (.redirect appPreStr)]⟩,
  -- app.get(pathPrefix sans trailing slash) (lines 822-827)
  ⟨some .get, lit "/medic", [.respond (.redirect "/medic/")]⟩,
  -- app.all(appPrefix + '*', setAuthorized) (line 830)
  ⟨none, seqs [lit "/medic/_design/medic/_rewrite/", anyStar], [.setAuthorized]⟩
]

/-- Everything registered before the global firewall `app.use` of
line 835. -/
def preFirewallRoutes : List Route :=
  preOnlineOnlyRoutes ++ (onlineOnlyRoutes ++ midRoutes)

/-- The global `app.use(authorization.offlineUserFirewall)` (line 835). -/
def fwRoute : Route := ⟨none, anyStar, [H.offlineUserFirewall]⟩

/-- The routes `app.put/post/delete(editPath = routePrefix + '*', canEdit)`
(lines 852-855). -/
def editRoutes : List Route := [
  ⟨some .put, RE.seq routePreRE anyStar, [.canEditCheck]⟩,
  ⟨some .post, RE.seq routePreRE anyStar, [.canEditCheck]⟩,
  ⟨some .delete, RE.seq routePreRE anyStar, [.canEditCheck]⟩
]

/-- The catch-all `app.all('*', proxy.web)` (line 857). -/
def catchAllRoute : Route := ⟨none, anyStar, [H.respond (.proxied .direct)]⟩

/-- The full application route table in registration order. -/
def appRoutes : List Route :=
  preOnlineOnlyRoutes ++ (onlineOnlyRoutes ++ (midRoutes ++
    (fwRoute :: (editRoutes ++ [catchAllRoute]))))

/-- Initial request state for a dispatch at a given url. -/
def initSt (p : String) : St := ⟨p, false, false, []⟩

/-- Dispatch one request through the application. -/
def dispatch (req : Req) (p : String) : Res :=
  runRoutes appRoutes req (initSt p)

/-- The wrapper `handleJsonRequest` (lines 196-212): routes registered through
`app.postJson` / `app.putJson` / `app.deleteJson` first check that the
`content-type` header is exactly `application/json`; otherwise they
respond with a 400 error before the wrapped callback can touch the
store. -/
def handleJsonRequest {α : Type} (contentType : Option String)
    (callback : α → α × Outcome) (store : α) : α × Outcome :=
  if badContentType contentType then
    (store, .errored 400 "content-type")
  else
    callback store

/-- An action on the client response stream of the changes proxy. -/
inductive StreamAct where
  | write : String → StreamAct
  | flush : StreamAct
deriving DecidableEq, Repr

/-- The handler `proxyForChanges.on('proxyRes')` (lines 810-816): the upstream
response is piped to the client response, and every upstream `data`
chunk additionally triggers `res.flush()` ("because these are longpolls,
we need to manually flush the CouchDB heartbeats through compression").
So each received chunk produces a write followed by a flush. -/
def changesProxyResActs (chunks : List String) : List StreamAct :=
  chunks.flatMap (fun c => [StreamAct.write c, StreamAct.flush])

/-- Modelled from the spec: the state of the compression middleware
(lines 307-320), which buffers response writes until flushed
("suspension while waiting on upstream data must not suppress keepalives
already buffered for delivery"). -/
structure CompState where
  buffer : List String
  sent : List String
deriving DecidableEq, Repr

/-- Modelled from the spec: one step of the compression middleware —
a write is buffered; `res.flush()` forwards everything buffered to the
client. -/
def compStep (st : CompState) : StreamAct → CompState
  | .write c => { st with buffer := st.buffer ++ [c] }
  | .flush => { buffer := [], sent := st.sent ++ st.buffer }

/-- Run the compression middleware over a list of stream actions. -/
def compRun (acts : List StreamAct) : CompState :=
  acts.foldl compStep ⟨[], []⟩

/-- One row of a bulk-read response. -/
inductive BulkRow where
  | doc : String → String → BulkRow
  | stub : String → BulkRow
deriving DecidableEq, Repr

/-- The document id a bulk row refers to. -/
def BulkRow.rowId : BulkRow → String
  | .doc i _ => i
  | .stub i => i

/-- Modelled from the spec: `filterBulkResult` of the Stream Filter
(spec 4.4/4.52): on a bulk read intercepted for an offline user, "every
row is replaced with a Stub placeholder rather than omitted"; visible
rows pass unchanged. -/
def filterBulkResult (visible : String → Bool) (rows : List BulkRow) : List BulkRow :=
  rows.map (fun r => if visible r.rowId then r else BulkRow.stub r.rowId)

/-- The handler `proxyForAuth.on('proxyRes')` (lines 877-888): when
`res.interceptResponse` is set by an offline handler the upstream body is
accumulated in full (Buffer.concat over the data events) and the
rewriting callback is applied to the whole body at the end; otherwise
the body is piped through unchanged. -/
def proxyForAuthBody (intercept : Bool) (rewriteBody : String → String)
    (chunks : List String) : String :=
  if intercept then rewriteBody (String.join chunks) else String.join chunks

/-- The audit record of spec section 3: one per document,
created on first write seen by the gateway, updated on later writes. -/
structure AuditRecord where
  initialReplicationDate : Nat
  latestWriteDate : Nat
  writerIdentity : String
deriving DecidableEq, Repr

/-- Modelled from the spec: upsert of a single audit record
(`infodoc.update`, line 890, together with spec 3 and 4.5 step (1)):
create on first sight, else update `latestWriteDate`/`writerIdentity`;
never delete. -/
def auditUpsert (store : List (String × AuditRecord)) (docId : String)
    (now : Nat) (writer : String) : List (String × AuditRecord) :=
  if store.any (fun p => p.1 = docId) then
    store.map (fun p =>
      if p.1 = docId then
        (p.1, { p.2 with latestWriteDate := now, writerIdentity := writer })
      else p)
  else
    store ++ [(docId, ⟨now, now, writer⟩)]

/-- Modelled from the spec: `infodoc.update` applied to every document id
affected by a proxied write response (lines 890-891). -/
def infodocUpdate (store : List (String × AuditRecord)) (docIds : List String)
    (now : Nat) (writer : String) : List (String × AuditRecord) :=
  docIds.foldl (fun s i => auditUpsert s i now writer) store

/-- The ids present in an audit store. -/
def auditIds (store : List (String × AuditRecord)) : List String :=
  store.map (fun p => p.1)

/-- A request issued by the test-support settings helper
(src/unnamed/part_000). -/
inductive SettingsCall (σ : Type) where
  | getSettings : SettingsCall σ
  | putSettings : σ → SettingsCall σ
deriving DecidableEq, Repr

/-- Errors thrown by the settings helper. -/
inductive SettingsErr where
  | previousNotReverted
  | nothingToRevert
deriving DecidableEq, Repr

/-- The shared state of the settings helper: the module-level
`originalSettings` slot (line 4 of src/unnamed/part_000) and the server's
current settings document.  `σ` is the settings payload type. -/
structure SettingsEnv (σ : Type) where
  originalSettings : Option σ
  server : σ
deriving DecidableEq, Repr

/-- The helper `updateSettings` (lines 123-138 of src/unnamed/part_000): throw if a
previous update was not reverted (issuing no request); otherwise GET the
current settings into the slot and PUT the updates.  `applyPut` is the
server's own semantics for the update-settings endpoint (external to the
helper). -/
def updateSettings {σ : Type} (applyPut : σ → σ → σ) (env : SettingsEnv σ)
    (updates : σ) : Except SettingsErr (SettingsEnv σ × List (SettingsCall σ)) :=
  match env.originalSettings with
  | some _ => .error .previousNotReverted
  | none =>
    .ok (⟨some env.server, applyPut env.server updates⟩,
         [.getSettings, .putSettings updates])

/-- The helper `revertSettings` (lines 140-151 of src/unnamed/part_000): throw if the
slot is empty; otherwise PUT the original settings back and clear the
slot. -/
def revertSettings {σ : Type} (applyPut : σ → σ → σ) (env : SettingsEnv σ) :
    Except SettingsErr (SettingsEnv σ × List (SettingsCall σ)) :=
  match env.originalSettings with
  | none => .error .nothingToRevert
  | some orig =>
    .ok (⟨none, applyPut env.server orig⟩, [.putSettings orig])

/-- A stored document as seen by the request helper
(src/unnamed/part_000): `_id`, `_rev`, the `_deleted` flag and the
remaining fields. -/
structure JsDoc where
  docId : String
  rev : String
  deleted : Bool
  fields : List (String × String)
deriving DecidableEq, Repr

/-- The helper `getDoc` (lines 68-73 of src/unnamed/part_000): fetch the current
document by id. -/
def getDocHelper (store : String → Option JsDoc) (docId : String) : Option JsDoc :=
  store docId

/-- The helper `deleteDoc` (lines 82-88 of src/unnamed/part_000): fetch the current
document, set `_deleted = true` on it, and save the result; this is the
document handed to `saveDoc`. -/
def deleteDocSaved (store : String → Option JsDoc) (docId : String) : Option JsDoc :=
  (getDocHelper store docId).map (fun d => { d with deleted := true })

/-- A request passes a list of routes untouched when every route of the
list that matches it runs its chain without responding and without
changing the request state.  This is the formal counterpart of "no
registered endpoint of that list applies to this request" (routes that
match everything, such as logging middleware or `express.static` when no
file exists, pass the state through unchanged). -/
def passAllB (rs : List Route) (req : Req) (st : St) : Bool :=
  rs.all (fun r =>
    !routeMatches r req.method st.path ||
      decide (runChain r.chain req st = ChainRes.cont st))

/-- Did a request end up forwarded to the backing store? -/
def isProxied : Outcome → Bool
  | .proxied _ => true
  | _ => false

/-- An authenticated offline user context. -/
def offlineCtx : UserCtx := ⟨false⟩

/-- An authenticated online user context. -/
def onlineCtx : UserCtx := ⟨true⟩

/-- A plain request (no special headers) by a given user. -/
def plainReq (m : Method) (u : UserCtx) : Req :=
  ⟨m, some u, none, false, false, true, true⟩

/-- A JSON write request by a given user, with the given write
authorization outcome and `can_edit` permission. -/
def writeReq (m : Method) (u : UserCtx) (allows canEdit : Bool) : Req :=
  ⟨m, some u, some "application/json", false, false, canEdit, allows⟩

/-- Representative concrete requests for each pattern of
`ONLINE_ONLY_ENDPOINTS`, with the method CouchDB uses for the
endpoint. -/
def onlineOnlyExamples : List (Method × String) := [
  (.get, "/medic/_design/d/_list/l"),
  (.get, "/medic/_design/d/_show/s"),
  (.get, "/medic/_design/d/_view/v"),
  (.post, "/medic/_find"),
  (.post, "/medic/_explain"),
  (.post, "/medic/_index"),
  (.post, "/medic/_ensure_full_commit"),
  (.get, "/medic/_security"),
  (.post, "/medic/_purge")
]

theorem anyStar_foldl (l : List Char) : l.foldl RE.deriv anyStar = anyStar := by
  induction l with
  | nil => rfl
  | cons c cs ih =>
    rw [List.foldl_cons]
    exact ih

theorem reMatches_anyStar (s : String) : reMatches anyStar s = true := by
  unfold reMatches reMatchesL
  rw [anyStar_foldl]
  rfl

theorem passAll_forall {rs : List Route} {req : Req} {st : St}
    (h : passAllB rs req st = true) :
    ∀ r ∈ rs, routeMatches r req.method st.path = true →
      runChain r.chain req st = ChainRes.cont st := by
  intro r hr hm
  have h2 := (List.all_eq_true).mp h r hr
  rw [hm] at h2
  simpa using h2

theorem runRoutes_pass : ∀ (rs rest : List Route) (req : Req) (st : St),
    (∀ r ∈ rs, routeMatches r req.method st.path = true →
      runChain r.chain req st = ChainRes.cont st) →
    runRoutes (rs ++ rest) req st = runRoutes rest req st
  | [], _, _, _, _ => rfl
  | r :: rs, rest, req, st, h => by
    rw [List.cons_append]
    cases hm : routeMatches r req.method st.path with
    | false =>
      simp only [runRoutes, hm, Bool.false_eq_true, if_false]
      exact runRoutes_pass rs rest req st
        (fun x hx hmx => h x (List.mem_cons_of_mem r hx) hmx)
    | true =>
      have hc := h r (List.mem_cons_self r rs) hm
      simp only [runRoutes, hm, if_true, hc]
      exact runRoutes_pass rs rest req st
        (fun x hx hmx => h x (List.mem_cons_of_mem r hx) hmx)

theorem runRoutes_fw_reject (rest : List Route) (req : Req) (st : St)
    (u : UserCtx) (hu : req.userCtx = some u) (ho : u.isOnline = false)
    (ha : st.authorized = false) :
    runRoutes (fwRoute :: rest) req st =
      ⟨.errored 403 "firewall", st⟩ := by
  have hm : routeMatches fwRoute req.method st.path = true := by
    simp [routeMatches, fwRoute, methodOk, reMatches_anyStar]
  simp only [runRoutes, hm, if_true]
  simp [runChain, runH, hu, ho, ha]

theorem runRoutes_fwPats : ∀ (pats : List RE) (rest : List Route) (req : Req)
    (st : St) (u : UserCtx),
    req.userCtx = some u → u.isOnline = false → st.authorized = false →
    pats.any (fun pat => reMatches pat st.path) = true →
    runRoutes
      ((pats.map (fun pat => Route.mk none pat [H.offlineUserFirewall])) ++ rest)
      req st = ⟨.errored 403 "firewall", st⟩
  | [], _, _, _, _, _, _, _, hhit => by simp at hhit
  | p :: ps, rest, req, st, u, hu, ho, ha, hhit => by
    rw [List.map_cons, List.cons_append]
    cases hm : reMatches p st.path with
    | false =>
      have hhit2 : ps.any (fun pat => reMatches pat st.path) = true := by
        rw [List.any_cons, hm] at hhit
        simpa using hhit
      have hmr :
          routeMatches ⟨none, p, [H.offlineUserFirewall]⟩ req.method st.path
            = false := by
        simp [routeMatches, methodOk, hm]
      simp only [runRoutes, hmr, Bool.false_eq_true, if_false]
      exact runRoutes_fwPats ps rest req st u hu ho ha hhit2
    | true =>
      have hmr :
          routeMatches ⟨none, p, [H.offlineUserFirewall]⟩ req.method st.path
            = true := by
        simp [routeMatches, methodOk, hm]
      simp only [runRoutes, hmr, if_true]
      simp [runChain, runH, hu, ho, ha]

theorem appRoutes_fw_split :
    appRoutes = preFirewallRoutes ++ (fwRoute :: (editRoutes ++ [catchAllRoute])) := by
  simp [appRoutes, preFirewallRoutes, List.append_assoc]

theorem compRun_go : ∀ (chunks : List String) (sent : List String),
    List.foldl compStep ⟨[], sent⟩ (changesProxyResActs chunks)
      = ⟨[], sent ++ chunks⟩
  | [], sent => by simp [changesProxyResActs]
  | c :: cs, sent => by
    have step2 :
        List.foldl compStep ⟨[], sent⟩ (changesProxyResActs (c :: cs))
          = List.foldl compStep ⟨[], sent ++ [c]⟩ (changesProxyResActs cs) := by
      simp [changesProxyResActs, compStep]
    rw [step2, compRun_go cs (sent ++ [c])]
    simp

theorem changesActs_flush_count : ∀ chunks : List String,
    (changesProxyResActs chunks).count StreamAct.flush = chunks.length
  | [] => by simp [changesProxyResActs]
  | c :: cs => by
    have h := changesActs_flush_count cs
    simp [changesProxyResActs, List.count_cons] at h ⊢
    omega

theorem auditIds_upsert (s : List (String × AuditRecord)) (d : String)
    (now : Nat) (w : String) :
    auditIds (auditUpsert s d now w) = auditIds s ∨
      auditIds (auditUpsert s d now w) = auditIds s ++ [d] := by
  unfold auditUpsert
  cases hc : s.any (fun p => p.1 = d) with
  | true =>
    left
    simp only [if_true]
    unfold auditIds
    rw [List.map_map]
    apply List.map_congr_left
    intro p _
    by_cases hp : p.1 = d
    · simp [hp]
    · simp [hp]
  | false =>
    right
    simp only [Bool.false_eq_true, if_false]
    unfold auditIds
    simp

theorem auditUpsert_keeps (s : List (String × AuditRecord)) (d k : String)
    (now : Nat) (w : String) (hk : k ∈ auditIds s) :
    k ∈ auditIds (auditUpsert s d now w) := by
  rcases auditIds_upsert s d now w with h | h
  · rw [h]; exact hk
  · rw [h]; exact List.mem_append_left _ hk

theorem auditUpsert_covers (s : List (String × AuditRecord)) (d : String)
    (now : Nat) (w : String) :
    d ∈ auditIds (auditUpsert s d now w) := by
  rcases auditIds_upsert s d now w with h | h
  · rw [h]
    have hc : s.any (fun p => p.1 = d) = true := by
      by_contra hc2
      have hc3 : s.any (fun p => p.1 = d) = false := by
        cases hq : s.any (fun p => p.1 = d)
        · rfl
        · exact absurd hq hc2
      unfold auditUpsert at h
      rw [hc3] at h
      simp only [Bool.false_eq_true, if_false] at h
      unfold auditIds at h
      simp at h
    rcases List.any_eq_true.mp hc with ⟨p, hp, hpd⟩
    have hpd2 : p.1 = d := by simpa using hpd
    unfold auditIds
    rw [← hpd2]
    exact List.mem_map_of_mem _ hp
  · rw [h]
    exact List.mem_append_right _ (List.mem_singleton.mpr rfl)

theorem infodocUpdate_keeps : ∀ (ids : List String)
    (s : List (String × AuditRecord)) (k : String) (now : Nat) (w : String),
    k ∈ auditIds s → k ∈ auditIds (infodocUpdate s ids now w)
  | [], _, _, _, _, hk => hk
  | i :: ids, s, k, now, w, hk => by
    unfold infodocUpdate
    rw [List.foldl_cons]
    exact infodocUpdate_keeps ids _ k now w (auditUpsert_keeps s i k now w hk)

theorem infodocUpdate_covers : ∀ (ids : List String)
    (s : List (String × AuditRecord)) (i : String) (now : Nat) (w : String),
    i ∈ ids → i ∈ auditIds (infodocUpdate s ids now w)
  | [], _, _, _, _, hi => by simp at hi
  | j :: ids, s, i, now, w, hi => by
    unfold infodocUpdate
    rw [List.foldl_cons]
    rcases List.mem_cons.mp hi with h | h
    · subst h
      exact infodocUpdate_keeps ids _ i now w (auditUpsert_covers s i now w)
    · exact infodocUpdate_covers ids _ i now w h

/-- C1 counterexample: the claim "an unmapped endpoint is rejected rather
than forwarded to the backing store, for any user (online or offline)" is
false at GET /api/v1/nonexistent for an authenticated online user: no
route registered before the global firewall claims the request (first
conjunct), yet the request is forwarded to the backing store by the
catch-all `app.all('*', proxy.web)` of line 857 (second conjunct). -/
theorem C1_counterexample :
    passAllB preFirewallRoutes (plainReq .get onlineCtx)
        (initSt "/api/v1/nonexistent") = true ∧
      (dispatch (plainReq .get onlineCtx) "/api/v1/nonexistent").outcome
        = .proxied .direct := by
  constructor
  · decide
  · rfl

/-- C1 (amended): a request by an authenticated offline user to an
endpoint that no route registered before the global firewall claims
(every earlier route either does not match it or passes it through
untouched) is rejected fail-closed with the 403 Forbidden firewall error
and never reaches the backing store.  The original claim's "for any user
(online or offline)" part fails: as `C1_counterexample` shows, for an
online user an unmapped endpoint falls through to the catch-all
always-proxy route. -/
theorem C1_unmapped_fail_closed_offline :
    ∀ (req : Req) (p : String) (u : UserCtx),
      passAllB preFirewallRoutes req (initSt p) = true →
      req.userCtx = some u → u.isOnline = false →
      dispatch req p = ⟨.errored 403 "firewall", initSt p⟩ := by
  intro req p u hpre hu ho
  unfold dispatch
  rw [appRoutes_fw_split,
      runRoutes_pass preFirewallRoutes _ req (initSt p) (passAll_forall hpre)]
  exact runRoutes_fw_reject _ req (initSt p) u hu ho rfl

/-- Witness for `C1_unmapped_fail_closed_offline` at a concrete unmapped
endpoint and offline user. -/
theorem C1_unmapped_fail_closed_offline_witness :
    dispatch (plainReq .get offlineCtx) "/api/v1/nonexistent"
      = ⟨.errored 403 "firewall", initSt "/api/v1/nonexistent"⟩ :=
  C1_unmapped_fail_closed_offline (plainReq .get offlineCtx)
    "/api/v1/nonexistent" offlineCtx (by decide) rfl rfl

/-- C3: a request by an authenticated offline user to an endpoint that
matches one of the `ONLINE_ONLY_ENDPOINTS` patterns (and that no earlier
route swallows) is rejected with the 403 Forbidden firewall error and is
never forwarded to the backing store; for an authenticated online user
the nine representative online-only requests (one per listed pattern, at
the method CouchDB uses) are all forwarded to the backing store. -/
theorem C3_online_only_forbidden :
    (∀ (req : Req) (p : String) (u : UserCtx),
      passAllB preOnlineOnlyRoutes req (initSt p) = true →
      onlineOnlyPats.any (fun pat => reMatches pat p) = true →
      req.userCtx = some u → u.isOnline = false →
      dispatch req p = ⟨.errored 403 "firewall", initSt p⟩ ∧
        isProxied (dispatch req p).outcome = false) ∧
    onlineOnlyExamples.all
      (fun e => isProxied (dispatch (plainReq e.1 onlineCtx) e.2).outcome)
      = true := by
  constructor
  · intro req p u hpre hhit hu ho
    have hmain : dispatch req p = ⟨.errored 403 "firewall", initSt p⟩ := by
      unfold dispatch appRoutes
      rw [runRoutes_pass preOnlineOnlyRoutes _ req (initSt p)
        (passAll_forall hpre)]
      unfold onlineOnlyRoutes
      exact runRoutes_fwPats onlineOnlyPats _ req (initSt p) u hu ho rfl hhit
    exact ⟨hmain, by rw [hmain]; rfl⟩
  · decide

/-- Witness for `C3_online_only_forbidden` at a concrete online-only
endpoint and offline user. -/
theorem C3_online_only_forbidden_witness :
    dispatch (plainReq .post offlineCtx) "/medic/_find"
      = ⟨.errored 403 "firewall", initSt "/medic/_find"⟩ :=
  (C3_online_only_forbidden.1 (plainReq .post offlineCtx) "/medic/_find"
    offlineCtx (by decide) (by decide) rfl rfl).1

/-- C9: a request by an authenticated offline user to an endpoint that
matches both an `ONLINE_ONLY_ENDPOINTS` pattern and an
`UNAUDITED_ENDPOINTS` pattern (e.g. _find, _explain, _design views) is
rejected with the 403 Forbidden firewall error — the online-only
firewall routes are registered before the unconditional unaudited proxy
routes — so the offline user can never reach the unaudited direct
proxy. -/
theorem C9_overlap_firewall_first :
    ∀ (req : Req) (p : String) (u : UserCtx),
      passAllB preOnlineOnlyRoutes req (initSt p) = true →
      onlineOnlyPats.any (fun pat => reMatches pat p) = true →
      unauditedPats.any (fun pat => reMatches pat p) = true →
      req.userCtx = some u → u.isOnline = false →
      dispatch req p = ⟨.errored 403 "firewall", initSt p⟩ ∧
        ∀ t, (dispatch req p).outcome ≠ .proxied t := by
  intro req p u hpre hhit hhitUn hu ho
  have hmain : dispatch req p = ⟨.errored 403 "firewall", initSt p⟩ := by
    unfold dispatch appRoutes
    rw [runRoutes_pass preOnlineOnlyRoutes _ req (initSt p)
      (passAll_forall hpre)]
    unfold onlineOnlyRoutes
    exact runRoutes_fwPats onlineOnlyPats _ req (initSt p) u hu ho rfl hhit
  refine ⟨hmain, ?_⟩
  intro t
  rw [hmain]
  intro hcontr
  exact Outcome.noConfusion hcontr

/-- Witness for `C9_overlap_firewall_first` at a concrete endpoint
present in both lists. -/
theorem C9_overlap_firewall_first_witness :
    dispatch (plainReq .post offlineCtx) "/medic/_explain"
      = ⟨.errored 403 "firewall", initSt "/medic/_explain"⟩ :=
  (C9_overlap_firewall_first (plainReq .post offlineCtx) "/medic/_explain"
    offlineCtx (by decide) (by decide) (by decide) rfl rfl).1

/-- C2: on the write-audited endpoints (POST `_bulk_docs`, lines 637-645,
and PUT on a document path, lines 677-685), for every combination of user
class, pipeline authorization outcome and `can_edit` permission: the
request passes the global firewall (records `fwPass` at line 835) if and
only if the user is online or the `authorized` flag was set on the
request by `authorization.setAuthorized`; the flag is set exactly when
the offline audited-write handler succeeded; and the full event trace
shows the flag being set after the pipeline authorization decision and
before the firewall check, so a vetted write passes the firewall on that
same request. -/
theorem C2_write_audited_firewall :
    ∀ (online allowed canEdit : Bool),
      ((Ev.fwPass ∈ (dispatch (writeReq .post ⟨online⟩ allowed canEdit)
          "/medic/_bulk_docs").st.trace) ↔
        (online = true ∨ Ev.setAuth ∈ (dispatch (writeReq .post ⟨online⟩
          allowed canEdit) "/medic/_bulk_docs").st.trace)) ∧
      ((Ev.setAuth ∈ (dispatch (writeReq .post ⟨online⟩ allowed canEdit)
          "/medic/_bulk_docs").st.trace) ↔
        (online = false ∧ allowed = true)) ∧
      ((dispatch (writeReq .post ⟨online⟩ allowed canEdit)
          "/medic/_bulk_docs").st.trace =
        if online then [Ev.marked, Ev.fwPass]
        else if allowed then [Ev.marked, Ev.authAllow, Ev.setAuth, Ev.fwPass]
        else [Ev.marked, Ev.authDeny]) ∧
      ((dispatch (writeReq .put ⟨online⟩ allowed canEdit)
          "/medic/somedoc").st.trace =
        if online then [Ev.marked, Ev.fwPass]
        else if allowed then [Ev.marked, Ev.authAllow, Ev.setAuth, Ev.fwPass]
        else [Ev.marked, Ev.authDeny]) := by
  intro online allowed canEdit
  cases online <;> cases allowed <;> cases canErase : canEdit <;> decide

/-- C6 counterexample: DELETE /medic/somedoc by an offline user is a
write through an audited endpoint (the routing file's comment at lines
647-648 calls these routes audited; the request runs the audited-write
authorization and is forwarded through proxyForAuth), yet no audit
marker runs on its request path: the DELETE route (lines 686-692) has no
`infodoc.mark` middleware.  This refutes "the audit marker runs before
the authorization decision on the request path" for every audited
write. -/
theorem C6_counterexample :
    (Ev.authAllow ∈ (dispatch (writeReq .delete ⟨false⟩ true true)
      "/medic/somedoc").st.trace) ∧
    ¬(Ev.marked ∈ (dispatch (writeReq .delete ⟨false⟩ true true)
      "/medic/somedoc").st.trace) ∧
    (dispatch (writeReq .delete ⟨false⟩ true true) "/medic/somedoc").outcome
      = .proxied .auth := by
  decide

/-- C6 (amended): every write through an audited endpoint is stamped by
`infodoc.update` on the proxied response (lines 890-891) — the update
creates the audit record on first sight and on subsequent writes only
updates it, never deleting any record; the request-path marker
`infodoc.mark` runs before the authorization decision on the bulk-docs
POST, the document-create POST and the document PUT routes, while the
DELETE (and attachment) routes carry no request-path marker and are
stamped only by the response-side update (the DELETE still reaches
proxyForAuth, whose responses trigger `infodoc.update`). -/
theorem C6_audit_stamping_amended :
    ((dispatch (writeReq .post ⟨false⟩ true true) "/medic/_bulk_docs").st.trace
      = [Ev.marked, Ev.authAllow, Ev.setAuth, Ev.fwPass]) ∧
    ((dispatch (writeReq .post ⟨false⟩ true true) "/medic/").st.trace
      = [Ev.marked, Ev.authAllow, Ev.setAuth, Ev.fwPass]) ∧
    ((dispatch (writeReq .put ⟨false⟩ true true) "/medic/somedoc").st.trace
      = [Ev.marked, Ev.authAllow, Ev.setAuth, Ev.fwPass]) ∧
    ((dispatch (writeReq .delete ⟨false⟩ true true) "/medic/somedoc").outcome
      = .proxied .auth) ∧
    (∀ (store : List (String × AuditRecord)) (ids : List String)
        (now : Nat) (w : String),
      (∀ k, k ∈ auditIds store → k ∈ auditIds (infodocUpdate store ids now w)) ∧
      (∀ i, i ∈ ids → i ∈ auditIds (infodocUpdate store ids now w))) := by
  refine ⟨by decide, by decide, by decide, by decide, ?_⟩
  intro store ids now w
  exact ⟨fun k hk => infodocUpdate_keeps ids store k now w hk,
         fun i hi => infodocUpdate_covers ids store i now w hi⟩

/-- Witness for `C6_audit_stamping_amended`: updating the audit store for
a new document id keeps the existing record and creates the new one. -/
theorem C6_audit_stamping_amended_witness :
    "d1" ∈ auditIds (infodocUpdate [("d0", ⟨1, 1, "w0"⟩)] ["d1"] 2 "w1") ∧
    "d0" ∈ auditIds (infodocUpdate [("d0", ⟨1, 1, "w0"⟩)] ["d1"] 2 "w1") :=
  ⟨(C6_audit_stamping_amended.2.2.2.2 [("d0", ⟨1, 1, "w0"⟩)] ["d1"] 2 "w1").2
      "d1" (by decide),
   (C6_audit_stamping_amended.2.2.2.2 [("d0", ⟨1, 1, "w0"⟩)] ["d1"] 2 "w1").1
      "d0" (by decide)⟩

/-- C4: on the changes proxy every upstream data chunk (keepalives
included) is followed by an explicit flush through the compression
middleware: for every sequence of upstream chunks the generated actions
contain exactly one flush per chunk, and after the buffering compression
middleware processes them its buffer is empty and everything received
has been sent on — no keepalive already received remains buffered while
the stream is suspended waiting for more data. -/
theorem C4_changes_flush :
    ∀ chunks : List String,
      (changesProxyResActs chunks).count StreamAct.flush = chunks.length ∧
      (compRun (changesProxyResActs chunks)).buffer = [] ∧
      (compRun (changesProxyResActs chunks)).sent = chunks := by
  intro chunks
  refine ⟨changesActs_flush_count chunks, ?_, ?_⟩
  · unfold compRun
    rw [compRun_go chunks []]
  · unfold compRun
    rw [compRun_go chunks []]
    simp

/-- C5: filtering a bulk-read response for an offline caller replaces
each row the caller may not see in place by a forbidden stub and returns
visible rows unchanged: the result has the same number of elements, the
row ids sit at the same positions as in the request's key list, and row
i of the result is row i of the input when visible, the stub for its id
when not.  Additionally, the interception point of the routing file
(lines 877-888) hands the rewriting function the accumulated full body,
so nothing is dropped before filtering. -/
theorem C5_bulk_stub_positional :
    (∀ (visible : String → Bool) (rows : List BulkRow),
      (filterBulkResult visible rows).length = rows.length ∧
      (filterBulkResult visible rows).map BulkRow.rowId
        = rows.map BulkRow.rowId ∧
      (∀ (i : Nat) (r : BulkRow), rows[i]? = some r →
        (filterBulkResult visible rows)[i]? =
          some (if visible r.rowId then r else BulkRow.stub r.rowId))) ∧
    (∀ (rewriteBody : String → String) (chunks : List String),
      proxyForAuthBody true rewriteBody chunks
        = rewriteBody (String.join chunks)) := by
  constructor
  · intro visible rows
    refine ⟨List.length_map _ _, ?_, ?_⟩
    · unfold filterBulkResult
      rw [List.map_map]
      apply List.map_congr_left
      intro r _
      simp only [Function.comp_apply]
      by_cases h : visible r.rowId = true
      · rw [if_pos h]
      · rw [if_neg h]
        rfl
    · intro i r hr
      unfold filterBulkResult
      rw [List.getElem?_map, hr]
      rfl
  · intro rewriteBody chunks
    rfl

/-- Witness for `C5_bulk_stub_positional`: bulk read of keys a, b, c
where b is invisible returns the stub for b at position 1. -/
theorem C5_bulk_stub_positional_witness :
    (filterBulkResult (fun i => i != "b")
      [BulkRow.doc "a" "A", BulkRow.doc "b" "B", BulkRow.doc "c" "C"])[1]?
      = some (BulkRow.stub "b") :=
  ((C5_bulk_stub_positional.1 (fun i => i != "b")
      [BulkRow.doc "a" "A", BulkRow.doc "b" "B", BulkRow.doc "c" "C"]).2.2
    1 (BulkRow.doc "b" "B") (by decide)).trans (by decide)

/-- C7: a request to a JSON write endpoint registered via
postJson/putJson/deleteJson whose content-type header is absent or not
exactly the string application/json is rejected with a 400 error before
the wrapped handler runs, and the store is unchanged; concretely, PUT
/api/v1/settings with a text/plain content type dies in the guard during
routing. -/
theorem C7_json_content_type_guard :
    (∀ (α : Type) (contentType : Option String) (callback : α → α × Outcome)
        (store : α),
      contentType ≠ some "application/json" →
      handleJsonRequest contentType callback store
        = (store, .errored 400 "content-type")) ∧
    ((dispatch (⟨.put, some onlineCtx, some "text/plain", false, false,
        true, true⟩ : Req) "/api/v1/settings").outcome
      = .errored 400 "content-type") := by
  constructor
  · intro α ct cb s hct
    have hb : badContentType ct = true := by
      cases ct with
      | none => rfl
      | some s2 =>
        have hne : s2 ≠ "application/json" := fun he => hct (by rw [he])
        unfold badContentType
        exact bne_iff_ne.mpr hne
    unfold handleJsonRequest
    rw [hb]
    simp
  · rfl

/-- Witness for `C7_json_content_type_guard` at a concrete store and
callback: the store value is returned unchanged. -/
theorem C7_json_content_type_guard_witness :
    handleJsonRequest (some "text/plain")
      (fun n : Nat => (n + 1, Outcome.handled "written")) 5
      = (5, .errored 400 "content-type") :=
  C7_json_content_type_guard.1 Nat (some "text/plain")
    (fun n : Nat => (n + 1, Outcome.handled "written")) 5 (by decide)

/-- C8: the settings helper keeps a single-slot invariant on its shared
originalSettings state: updateSettings while a previous update has not
been reverted throws and issues no request (the settings stay unchanged);
revertSettings with an empty slot throws; and a successful revertSettings
PUTs the original settings back and clears the slot, after which
updateSettings succeeds again. -/
theorem C8_settings_single_slot :
    ∀ (σ : Type) (applyPut : σ → σ → σ) (env : SettingsEnv σ)
      (updates updates2 orig : σ),
      (env.originalSettings = some orig →
        updateSettings applyPut env updates = .error .previousNotReverted) ∧
      (env.originalSettings = none →
        revertSettings applyPut env = .error .nothingToRevert) ∧
      (env.originalSettings = some orig →
        revertSettings applyPut env
          = .ok (⟨none, applyPut env.server orig⟩, [.putSettings orig]) ∧
        updateSettings applyPut ⟨none, applyPut env.server orig⟩ updates2
          = .ok (⟨some (applyPut env.server orig),
                  applyPut (applyPut env.server orig) updates2⟩,
                 [.getSettings, .putSettings updates2])) := by
  intro σ applyPut env updates updates2 orig
  refine ⟨?_, ?_, ?_⟩
  · intro h
    unfold updateSettings
    rw [h]
  · intro h
    unfold revertSettings
    rw [h]
  · intro h
    constructor
    · unfold revertSettings
      rw [h]
    · rfl

/-- Witness for `C8_settings_single_slot` on concrete states: occupied
slot rejects an update, empty slot rejects a revert, occupied slot
reverts and clears. -/
theorem C8_settings_single_slot_witness :
    updateSettings (fun _ u => u) (⟨some 7, 3⟩ : SettingsEnv Nat) 9
      = .error .previousNotReverted ∧
    revertSettings (fun _ u => u) (⟨none, 3⟩ : SettingsEnv Nat)
      = .error .nothingToRevert ∧
    revertSettings (fun _ u => u) (⟨some 7, 3⟩ : SettingsEnv Nat)
      = .ok (⟨none, 7⟩, [.putSettings 7]) :=
  ⟨(C8_settings_single_slot Nat (fun _ u => u) ⟨some 7, 3⟩ 9 9 7).1 rfl,
   (C8_settings_single_slot Nat (fun _ u => u) ⟨none, 3⟩ 9 9 7).2.1 rfl,
   ((C8_settings_single_slot Nat (fun _ u => u) ⟨some 7, 3⟩ 9 9 7).2.2 rfl).1⟩

/-- C10: deleteDoc(id) fetches the current document and saves a document
equal to the fetched one except that _deleted is true; _id, _rev and all
remaining fields pass through unchanged, so the delete targets exactly
the latest fetched revision. -/
theorem C10_deleteDoc_frame :
    ∀ (store : String → Option JsDoc) (docId : String) (d : JsDoc),
      store docId = some d →
      deleteDocSaved store docId = some ⟨d.docId, d.rev, true, d.fields⟩ := by
  intro store docId d h
  unfold deleteDocSaved getDocHelper
  rw [h]
  rfl

/-- Witness for `C10_deleteDoc_frame` on a concrete store. -/
theorem C10_deleteDoc_frame_witness :
    deleteDocSaved
      (fun i => if i = "doc1"
        then some ⟨"doc1", "3-abc", false, [("type", "person")]⟩
        else none) "doc1"
      = some ⟨"doc1", "3-abc", true, [("type", "person")]⟩ :=
  C10_deleteDoc_frame
    (fun i => if i = "doc1"
      then some ⟨"doc1", "3-abc", false, [("type", "person")]⟩
      else none) "doc1" ⟨"doc1", "3-abc", false, [("type", "person")]⟩
    (by decide)
